import Mathlib

/-!
Verification of the Topic Graph Service (`src/topic_graph.py`).

The service is a thin wrapper over a Neo4j property graph.  We embed the
store as a `Graph` (nodes carrying ids, a label and a property map; edges
carrying source id, relationship type and target id) and translate every
Cypher query the source issues into an explicit state transition:

* `MERGE (n:L {props})` — match all nodes with label `L` and the given
  properties; if none, create a fresh node carrying exactly those
  properties;
* `MERGE` on a full pattern (node plus relationship) — match the whole
  pattern; if the whole pattern does not match, create every unbound part
  of it (including a fresh node when the pattern's node variable is
  unbound, which is Neo4j's documented behaviour);
* `MERGE (a)-[:R]->(b)` with both ends bound — match existing edges, else
  create one;
* `DETACH DELETE n` — remove the matched nodes together with every edge
  incident to them;
* `MATCH` — enumerate rows (one row per matched pattern instance).

Each `_xxx` static method of `TopicGraph` becomes a Lean function of the
same name; a raised `ValueError` becomes `Except.error` with the same
message; the row dictionaries the Python code builds become association
lists (`Rec`).  A Python attribute access `row['x']['name']` on a node is
modelled by `getProp`, with `""` standing for the (never exercised)
missing-property case.
-/

namespace TopicGraph

/-- A property-graph node: numeric id, label, property map. -/
structure Node where
  nid : Nat
  label : String
  props : List (String × String)
deriving Repr, DecidableEq

/-- A relationship: source node id, relationship type, target node id. -/
structure Edge where
  src : Nat
  rel : String
  dst : Nat
deriving Repr, DecidableEq

/-- The state of the store: nodes, edges and a fresh-id counter. -/
structure Graph where
  nodes : List Node
  edges : List Edge
  nextId : Nat
deriving Repr, DecidableEq

/-- A result row, as the Python code returns it: field name to value. -/
abbrev Rec := List (String × String)

/-- Property access `node['k']` (missing keys never arise on reachable data). -/
def getProp (n : Node) (k : String) : String :=
  (n.props.lookup k).getD ""

/-- Does `n` match the Cypher node pattern `(:label {props})`? -/
def nodeMatches (n : Node) (label : String) (props : List (String × String)) : Bool :=
  n.label == label && props.all (fun kv => n.props.lookup kv.1 == some kv.2)

/-- All nodes matching a node pattern. -/
def Graph.matching (g : Graph) (label : String) (props : List (String × String)) : List Node :=
  g.nodes.filter (fun n => nodeMatches n label props)

/-- Is there an edge `(s)-[:rel]->(d)`? -/
def hasEdge (g : Graph) (s : Nat) (rel : String) (d : Nat) : Bool :=
  g.edges.any (fun e => e.src == s && e.rel == rel && e.dst == d)

/-- Create a fresh node. -/
def addNode (g : Graph) (label : String) (props : List (String × String)) : Graph × Node :=
  let n : Node := ⟨g.nextId, label, props⟩
  ({ nodes := g.nodes ++ [n], edges := g.edges, nextId := g.nextId + 1 }, n)

/-- Create an edge. -/
def addEdge (g : Graph) (s : Nat) (rel : String) (d : Nat) : Graph :=
  { g with edges := g.edges ++ [⟨s, rel, d⟩] }

/-- Cypher `MERGE (n:label {props})`: match, else create. -/
def mergeNode (g : Graph) (label : String) (props : List (String × String)) : Graph × List Node :=
  let ms := g.matching label props
  if ms.isEmpty then
    let (g1, n) := addNode g label props
    (g1, [n])
  else (g, ms)

/-- Cypher `MERGE (n:label {props})-[:rel]->(target)` with `target` bound:
match the full pattern, else create node and edge. -/
def mergePatternTo (g : Graph) (label : String) (props : List (String × String))
    (rel : String) (target : Nat) : Graph × List Node :=
  let ms := g.nodes.filter (fun n => nodeMatches n label props && hasEdge g n.nid rel target)
  if ms.isEmpty then
    let (g1, n) := addNode g label props
    (addEdge g1 n.nid rel target, [n])
  else (g, ms)

/-- Cypher `MERGE (src)-[:rel]->(t:label {props})` with `src` bound:
match the full pattern, else create node and edge. -/
def mergePatternFrom (g : Graph) (srcId : Nat) (rel : String) (label : String)
    (props : List (String × String)) : Graph × List Node :=
  let ms := g.nodes.filter (fun t => nodeMatches t label props && hasEdge g srcId rel t.nid)
  if ms.isEmpty then
    let (g1, t) := addNode g label props
    (addEdge g1 srcId rel t.nid, [t])
  else (g, ms)

/-- Cypher `MERGE (s)-[:rel]->(d)` with both ends bound: returns the new state and
the number of result rows (one per matched edge, or one for the created edge). -/
def mergeEdgeRows (g : Graph) (s : Nat) (rel : String) (d : Nat) : Graph × Nat :=
  let k := (g.edges.filter (fun e => e.src == s && e.rel == rel && e.dst == d)).length
  if k == 0 then (addEdge g s rel d, 1) else (g, k)

/-- Cypher `DETACH DELETE`: remove the given nodes and every incident edge. -/
def detachDelete (g : Graph) (victims : List Node) : Graph :=
  let ids := victims.map (fun n => n.nid)
  { nodes := g.nodes.filter (fun n => !(ids.contains n.nid)),
    edges := g.edges.filter (fun e => !(ids.contains e.src) && !(ids.contains e.dst)),
    nextId := g.nextId }

/-- Transaction `_create_trunk`: `MERGE (trunk:Trunk {name: $name}) RETURN trunk`,
then `result.single()['trunk']['name']`. -/
def _create_trunk (g : Graph) (name : String) : Graph × Option String :=
  let (g1, rows) := mergeNode g "Trunk" [("name", name)]
  (g1, match rows with
       | [tr] => some (getProp tr "name")
       | _ => none)

/-- Transaction `_get_trunks`: `MATCH (trunk:Trunk) RETURN trunk`, one `{name}` row per trunk. -/
def _get_trunks (g : Graph) : List Rec :=
  (g.matching "Trunk" []).map (fun tr => [("name", getProp tr "name")])

/-- Transaction `_delete_trunk`: `MATCH (trunk:Trunk {name: $name}) DETACH DELETE trunk`. -/
def _delete_trunk (g : Graph) (name : String) : Graph :=
  detachDelete g (g.matching "Trunk" [("name", name)])

/-- Body of `_create_branch` once the parent label has been validated:
match the parent, keep only parents with no `BELONGS_TO` edge from any
branch of the requested name, then `MERGE` branch-and-edge per row. -/
def createBranchOn (g : Graph) (parentLabel name parent_name note : String) :
    Graph × List Rec :=
  let parents := (g.matching parentLabel [("name", parent_name)]).filter
    (fun p => !(g.nodes.any (fun b =>
      nodeMatches b "Branch" [("name", name)] && hasEdge g b.nid "BELONGS_TO" p.nid)))
  parents.foldl
    (fun acc p =>
      let (g1, rows) := mergePatternTo acc.1 "Branch" [("name", name), ("note", note)]
        "BELONGS_TO" p.nid
      (g1, acc.2 ++ rows.map (fun b => [("branch", getProp b "name"), ("parent", getProp p "name")])))
    (g, [])

/-- Transaction `_create_branch`: validate the parent label, then run the query. -/
def _create_branch (g : Graph) (name parent_label parent_name note : String) :
    Except String (Graph × List Rec) :=
  if parent_label == "Trunk" then .ok (createBranchOn g "Trunk" name parent_name note)
  else if parent_label == "Branch" then .ok (createBranchOn g "Branch" name parent_name note)
  else .error "Branch must be created on Trunk or Branch"

/-- Body of `_delete_branch`: match `(branch:Branch {name})-[:BELONGS_TO]->(parent)`
and `DETACH DELETE branch`. -/
def deleteBranchOn (g : Graph) (parentLabel name parent_name : String) : Graph :=
  detachDelete g (g.nodes.filter (fun b =>
    nodeMatches b "Branch" [("name", name)] &&
    g.edges.any (fun e => e.src == b.nid && e.rel == "BELONGS_TO" &&
      g.nodes.any (fun p => p.nid == e.dst && nodeMatches p parentLabel [("name", parent_name)]))))

/-- Transaction `_delete_branch`: validate the parent label, then run the query. -/
def _delete_branch (g : Graph) (name parent_label parent_name : String) :
    Except String Graph :=
  if parent_label == "Trunk" then .ok (deleteBranchOn g "Trunk" name parent_name)
  else if parent_label == "Branch" then .ok (deleteBranchOn g "Branch" name parent_name)
  else .error "Branch must belong to Trunk or Branch"

/-- Body of `_connect_branch`: match both endpoints (cartesian rows), then
`MERGE (from)-[:BELONGS_TO]->(to)` per row. -/
def connectBranchOn (g : Graph) (parentLabel from_branch to_parent : String) :
    Graph × List Rec :=
  let froms := g.matching "Branch" [("name", from_branch)]
  let tos := g.matching parentLabel [("name", to_parent)]
  froms.foldl
    (fun accF f =>
      tos.foldl
        (fun acc t =>
          let (g1, k) := mergeEdgeRows acc.1 f.nid "BELONGS_TO" t.nid
          (g1, acc.2 ++ List.replicate k [("from", getProp f "name"), ("to", getProp t "name")]))
        accF)
    (g, [])

/-- Transaction `_connect_branch`: validate the parent label, then run the query. -/
def _connect_branch (g : Graph) (from_branch parent_label to_parent : String) :
    Except String (Graph × List Rec) :=
  if parent_label == "Trunk" then .ok (connectBranchOn g "Trunk" from_branch to_parent)
  else if parent_label == "Branch" then .ok (connectBranchOn g "Branch" from_branch to_parent)
  else .error "Branch must belong to Trunk or Branch"

/-- The query text `_connect_branch` assembles, per parent label. -/
def connectBranchQuery (parent_label : String) : Except String String :=
  let q := "MATCH (from:Branch \x7b name: $from_branch \x7d) "
  if parent_label == "Trunk" then
    .ok (q ++ "MATCH (to:Trunk \x7b name: $to_parent \x7d) "
      ++ "MERGE (from)-[:BELONGS_TO]->(to) " ++ "RETURN from, to")
  else if parent_label == "Branch" then
    .ok (q ++ "MATCH (to:Branch \x7b name: $to_parent \x7d) "
      ++ "MERGE (from)-[:BELONGS_TO]->(to) " ++ "RETURN from, to")
  else .error "Branch must belong to Trunk or Branch"

/-- Body of `_get_branches`: one row per
`(branch:Branch)-[:BELONGS_TO]->(:label {name})` pattern instance. -/
def getBranchesOn (g : Graph) (parentLabel name : String) : List Rec :=
  g.edges.flatMap (fun e =>
    if e.rel == "BELONGS_TO" then
      (g.nodes.filter (fun b => b.nid == e.src && b.label == "Branch")).flatMap (fun b =>
        (g.nodes.filter (fun p => p.nid == e.dst && nodeMatches p parentLabel [("name", name)])).map
          (fun _ => [("name", getProp b "name")]))
    else [])

/-- Transaction `_get_branches`: validate the label, then run the query. -/
def _get_branches (g : Graph) (label name : String) : Except String (List Rec) :=
  if label == "Trunk" then .ok (getBranchesOn g "Trunk" name)
  else if label == "Branch" then .ok (getBranchesOn g "Branch" name)
  else .error "Can fetch Branches only of Trunk or Branch"

/-- Body of `_create_reference`: match the subject, keep only subjects with
no `IS_ABOUT` edge from any reference of the requested title, then `MERGE`
reference-and-edge per row. -/
def createReferenceOn (g : Graph) (aboutLabel title url about : String) :
    Graph × List Rec :=
  let abouts := (g.matching aboutLabel [("name", about)]).filter
    (fun a => !(g.nodes.any (fun r =>
      nodeMatches r "Reference" [("title", title)] && hasEdge g r.nid "IS_ABOUT" a.nid)))
  abouts.foldl
    (fun acc a =>
      let (g1, rows) := mergePatternTo acc.1 "Reference" [("title", title), ("url", url)]
        "IS_ABOUT" a.nid
      (g1, acc.2 ++ rows.map (fun r =>
        [("title", getProp r "title"), ("url", getProp r "url"), ("about", getProp a "name")])))
    (g, [])

/-- Transaction `_create_reference`: validate the subject label, then run the query. -/
def _create_reference (g : Graph) (title url about_label about : String) :
    Except String (Graph × List Rec) :=
  if about_label == "Trunk" then .ok (createReferenceOn g "Trunk" title url about)
  else if about_label == "Branch" then .ok (createReferenceOn g "Branch" title url about)
  else .error "Reference must pertain to Trunk or Branch"

/-- Body of `_cross_reference`: one row per
`(ref:Reference {title})-[:IS_ABOUT]->(:currentLabel {name: current_about})`
instance, then `MERGE (ref)-[:IS_ABOUT]->(to:toLabel {name: $to})` per row
(`to` is unbound, so a failed full-pattern match creates node and edge). -/
def crossReferenceOn (g : Graph) (currentLabel toLabel title current_about to_arg : String) :
    Graph × List Rec :=
  let rows := g.edges.flatMap (fun e =>
    if e.rel == "IS_ABOUT" then
      (g.nodes.filter (fun r => r.nid == e.src && nodeMatches r "Reference" [("title", title)])).flatMap
        (fun r =>
          (g.nodes.filter (fun c => c.nid == e.dst &&
            nodeMatches c currentLabel [("name", current_about)])).map (fun _ => r))
    else [])
  rows.foldl
    (fun acc r =>
      let (g1, ts) := mergePatternFrom acc.1 r.nid "IS_ABOUT" toLabel [("name", to_arg)]
      (g1, acc.2 ++ ts.map (fun t => [("title", getProp r "title"), ("to", getProp t "name")])))
    (g, [])

/-- Transaction `_cross_reference`: validate the current label, then the target label,
then run the query. -/
def _cross_reference (g : Graph) (title current_about_label current_about to_label to_arg : String) :
    Except String (Graph × List Rec) :=
  if current_about_label == "Trunk" then
    if to_label == "Trunk" then .ok (crossReferenceOn g "Trunk" "Trunk" title current_about to_arg)
    else if to_label == "Branch" then .ok (crossReferenceOn g "Trunk" "Branch" title current_about to_arg)
    else .error "Reference must pertain to Trunk or Branch"
  else if current_about_label == "Branch" then
    if to_label == "Trunk" then .ok (crossReferenceOn g "Branch" "Trunk" title current_about to_arg)
    else if to_label == "Branch" then .ok (crossReferenceOn g "Branch" "Branch" title current_about to_arg)
    else .error "Reference must pertain to Trunk or Branch"
  else .error "Reference must pertain to Trunk or Branch"

/-- Body of `_connect_topics` (verbatim duplicate of `_connect_branch`
in the source). -/
def connectTopicsOn (g : Graph) (parentLabel from_branch to_parent : String) :
    Graph × List Rec :=
  let froms := g.matching "Branch" [("name", from_branch)]
  let tos := g.matching parentLabel [("name", to_parent)]
  froms.foldl
    (fun accF f =>
      tos.foldl
        (fun acc t =>
          let (g1, k) := mergeEdgeRows acc.1 f.nid "BELONGS_TO" t.nid
          (g1, acc.2 ++ List.replicate k [("from", getProp f "name"), ("to", getProp t "name")]))
        accF)
    (g, [])

/-- Transaction `_connect_topics`: validate the parent label, then run the query. -/
def _connect_topics (g : Graph) (from_branch parent_label to_parent : String) :
    Except String (Graph × List Rec) :=
  if parent_label == "Trunk" then .ok (connectTopicsOn g "Trunk" from_branch to_parent)
  else if parent_label == "Branch" then .ok (connectTopicsOn g "Branch" from_branch to_parent)
  else .error "Branch must belong to Trunk or Branch"

/-- The query text `_connect_topics` assembles, per parent label. -/
def connectTopicsQuery (parent_label : String) : Except String String :=
  let q := "MATCH (from:Branch \x7b name: $from_branch \x7d) "
  if parent_label == "Trunk" then
    .ok (q ++ "MATCH (to:Trunk \x7b name: $to_parent \x7d) "
      ++ "MERGE (from)-[:BELONGS_TO]->(to) " ++ "RETURN from, to")
  else if parent_label == "Branch" then
    .ok (q ++ "MATCH (to:Branch \x7b name: $to_parent \x7d) "
      ++ "MERGE (from)-[:BELONGS_TO]->(to) " ++ "RETURN from, to")
  else .error "Branch must belong to Trunk or Branch"

/-- Body of `_get_references`: one row per
`(ref:Reference)-[:IS_ABOUT]->(:label {name: about})` pattern instance. -/
def getReferencesOn (g : Graph) (aboutLabel about : String) : List Rec :=
  g.edges.flatMap (fun e =>
    if e.rel == "IS_ABOUT" then
      (g.nodes.filter (fun r => r.nid == e.src && r.label == "Reference")).flatMap (fun r =>
        (g.nodes.filter (fun a => a.nid == e.dst && nodeMatches a aboutLabel [("name", about)])).map
          (fun _ => [("title", getProp r "title"), ("url", getProp r "url")]))
    else [])

/-- Transaction `_get_references`: validate the label, then run the query. -/
def _get_references (g : Graph) (about_label about : String) : Except String (List Rec) :=
  if about_label == "Trunk" then .ok (getReferencesOn g "Trunk" about)
  else if about_label == "Branch" then .ok (getReferencesOn g "Branch" about)
  else .error "Reference must belong to Trunk or Branch"

/-- Body of `_delete_reference`: match
`(ref:Reference {title})-[:IS_ABOUT]->(:label {name})` and `DETACH DELETE ref`. -/
def deleteReferenceOn (g : Graph) (aboutLabel title about : String) : Graph :=
  detachDelete g (g.nodes.filter (fun r =>
    nodeMatches r "Reference" [("title", title)] &&
    g.edges.any (fun e => e.src == r.nid && e.rel == "IS_ABOUT" &&
      g.nodes.any (fun a => a.nid == e.dst && nodeMatches a aboutLabel [("name", about)]))))

/-- Transaction `_delete_reference`: validate the subject label, then run the query. -/
def _delete_reference (g : Graph) (title about_label about : String) :
    Except String Graph :=
  if about_label == "Trunk" then .ok (deleteReferenceOn g "Trunk" title about)
  else if about_label == "Branch" then .ok (deleteReferenceOn g "Branch" title about)
  else .error "Reference must belong to Trunk or Branch"

/-- All Branch nodes carrying a given name. -/
def branchesNamed (g : Graph) (bname : String) : List Node :=
  g.matching "Branch" [("name", bname)]

/-- Number of `BELONGS_TO` edges from a Branch named `bname` to node `pid`
(the relationship the §3 uniqueness invariant is about). -/
def belongsCount (g : Graph) (bname : String) (pid : Nat) : Nat :=
  (g.edges.filter (fun e => e.rel == "BELONGS_TO" && e.dst == pid &&
    g.nodes.any (fun b => b.nid == e.src && nodeMatches b "Branch" [("name", bname)]))).length

/-- Number of `IS_ABOUT` edges from a Reference titled `title` to node `aid`. -/
def isAboutCount (g : Graph) (title : String) (aid : Nat) : Nat :=
  (g.edges.filter (fun e => e.rel == "IS_ABOUT" && e.dst == aid &&
    g.nodes.any (fun r => r.nid == e.src && nodeMatches r "Reference" [("title", title)]))).length

/-- One caller's attempt to create a given branch-to-parent edge: either
through `create_branch` (with some note) or through `connect_branch`. -/
inductive Attempt where
  | create (note : String)
  | connect
deriving Repr, DecidableEq

/-- Whether the attempt goes through `create_branch`. -/
def Attempt.isCreate : Attempt → Bool
  | .create _ => true
  | .connect => false

/-- Run one attempt as one atomic transaction (the store serialises
transactions; a raised `ValueError` leaves the store untouched). -/
def runAttempt (bname plabel pname : String) (g : Graph) (a : Attempt) : Graph :=
  match a with
  | .create note =>
      match _create_branch g bname plabel pname note with
      | .ok gr => gr.1
      | .error _ => g
  | .connect =>
      match _connect_branch g bname plabel pname with
      | .ok gr => gr.1
      | .error _ => g

/-- Run a serialisation of N concurrent attempts, one transaction at a time. -/
def runAttempts (bname plabel pname : String) (g : Graph) (ops : List Attempt) : Graph :=
  ops.foldl (runAttempt bname plabel pname) g

/-- Well-formed ids: every node id and edge endpoint is below the fresh-id
counter (holds for every store reachable through the service). -/
def IdsOk (g : Graph) : Prop :=
  (∀ n ∈ g.nodes, n.nid < g.nextId) ∧ (∀ e ∈ g.edges, e.src < g.nextId ∧ e.dst < g.nextId)

instance (g : Graph) : Decidable (IdsOk g) := by
  unfold IdsOk
  exact inferInstance

/-- A store holding the single Trunk `Math`. -/
def gMath : Graph := ⟨[⟨0, "Trunk", [("name", "Math")]⟩], [], 1⟩

/-- A store holding Trunk `Math` and Branch `Algebra` attached to it. -/
def gMathAlg : Graph :=
  ⟨[⟨0, "Trunk", [("name", "Math")]⟩, ⟨1, "Branch", [("name", "Algebra"), ("note", "intro")]⟩],
   [⟨1, "BELONGS_TO", 0⟩], 2⟩

/-- A store holding Trunks `T1`, `T2` and Branch `A` attached to both. -/
def gTwoParents : Graph :=
  ⟨[⟨0, "Trunk", [("name", "T1")]⟩, ⟨1, "Trunk", [("name", "T2")]⟩,
    ⟨2, "Branch", [("name", "A"), ("note", "")]⟩],
   [⟨2, "BELONGS_TO", 0⟩, ⟨2, "BELONGS_TO", 1⟩], 3⟩

/-- A store holding Trunk `Math` and Reference `Euclid` about it. -/
def gRefMath : Graph :=
  ⟨[⟨0, "Trunk", [("name", "Math")]⟩, ⟨1, "Reference", [("title", "Euclid"), ("url", "http://x")]⟩],
   [⟨1, "IS_ABOUT", 0⟩], 2⟩

/-- A store holding Trunks `T1`, `T2` and Reference `R` about both. -/
def gRefTwoSubjects : Graph :=
  ⟨[⟨0, "Trunk", [("name", "T1")]⟩, ⟨1, "Trunk", [("name", "T2")]⟩,
    ⟨2, "Reference", [("title", "R"), ("url", "http://r")]⟩],
   [⟨2, "IS_ABOUT", 0⟩, ⟨2, "IS_ABOUT", 1⟩], 3⟩

/-- A store holding Trunks `Math` and `Other` and Reference `Euclid` about `Math`. -/
def gRefMathOther : Graph :=
  ⟨[⟨0, "Trunk", [("name", "Math")]⟩, ⟨1, "Reference", [("title", "Euclid"), ("url", "http://x")]⟩,
    ⟨2, "Trunk", [("name", "Other")]⟩],
   [⟨1, "IS_ABOUT", 0⟩], 3⟩

/-- A store holding Trunk `Math`, Branch `Algebra` on it and Reference `Euclid` about it. -/
def gFull : Graph :=
  ⟨[⟨0, "Trunk", [("name", "Math")]⟩, ⟨1, "Branch", [("name", "Algebra"), ("note", "intro")]⟩,
    ⟨2, "Reference", [("title", "Euclid"), ("url", "http://x")]⟩],
   [⟨1, "BELONGS_TO", 0⟩, ⟨2, "IS_ABOUT", 0⟩], 3⟩

/-- The requested edge has settled: exactly one Branch node of the given
name exists, carrying exactly one `BELONGS_TO` edge to parent `p`. -/
def EdgeSettled (g : Graph) (bname : String) (p : Node) : Prop :=
  ∃ b : Node, branchesNamed g bname = [b] ∧
    (g.edges.filter (fun e =>
      e.src == b.nid && e.rel == "BELONGS_TO" && e.dst == p.nid)).length = 1

/-- Invariant for the concurrency argument: the parent still matches
uniquely, ids are well-formed, and the requested edge has settled. -/
def ConnInv (g : Graph) (plabel pname bname : String) (p : Node) : Prop :=
  g.matching plabel [("name", pname)] = [p] ∧ IdsOk g ∧ EdgeSettled g bname p

end TopicGraph

namespace TopicGraph

/-! ### General lemmas about the embedding -/

lemma foldl_acc_const {α β : Type} (l : List α) (init : β) :
    List.foldl (fun acc _ => acc) init l = init := by
  induction l generalizing init with
  | nil => rfl
  | cons a t ih => simp only [List.foldl_cons]; exact ih init

lemma flatMap_eq_nil_of_forall {α β : Type} (l : List α) (f : α → List β)
    (h : ∀ x ∈ l, f x = []) : l.flatMap f = [] := by
  induction l with
  | nil => rfl
  | cons a t ih =>
      simp only [List.flatMap_cons, h a (List.mem_cons_self a t), List.nil_append]
      exact ih (fun x hx => h x (List.mem_cons_of_mem a hx))

lemma nodeMatches_head (n : Node) (L : String) (kv : String × String)
    (rest : List (String × String)) (h : nodeMatches n L (kv :: rest) = true) :
    nodeMatches n L [kv] = true := by
  simp only [nodeMatches, List.all_cons, List.all_nil, Bool.and_true, Bool.and_eq_true] at h ⊢
  exact ⟨h.1, h.2.1⟩

/-- If every matched parent already carries the guarded edge, the
`_create_branch` body is a no-op returning no rows. -/
lemma createBranchOn_alreadyExists (g : Graph) (L name pname note : String)
    (h : ∀ p ∈ g.matching L [("name", pname)], ∃ b ∈ g.nodes,
      nodeMatches b "Branch" [("name", name)] = true ∧
      hasEdge g b.nid "BELONGS_TO" p.nid = true) :
    createBranchOn g L name pname note = (g, []) := by
  have hf : (g.matching L [("name", pname)]).filter
      (fun p => !(g.nodes.any (fun b =>
        nodeMatches b "Branch" [("name", name)] && hasEdge g b.nid "BELONGS_TO" p.nid))) = [] := by
    refine List.filter_eq_nil_iff.mpr ?_
    intro p hp
    obtain ⟨b, hb, hm, he⟩ := h p hp
    have hany : g.nodes.any (fun b =>
        nodeMatches b "Branch" [("name", name)] && hasEdge g b.nid "BELONGS_TO" p.nid) = true :=
      List.any_eq_true.mpr ⟨b, hb, by simp [hm, he]⟩
    simp [hany]
  simp only [createBranchOn, hf, List.foldl_nil]

/-- If every matched subject already carries the guarded edge, the
`_create_reference` body is a no-op returning no rows. -/
lemma createReferenceOn_alreadyExists (g : Graph) (L title url about : String)
    (h : ∀ a ∈ g.matching L [("name", about)], ∃ r ∈ g.nodes,
      nodeMatches r "Reference" [("title", title)] = true ∧
      hasEdge g r.nid "IS_ABOUT" a.nid = true) :
    createReferenceOn g L title url about = (g, []) := by
  have hf : (g.matching L [("name", about)]).filter
      (fun a => !(g.nodes.any (fun r =>
        nodeMatches r "Reference" [("title", title)] && hasEdge g r.nid "IS_ABOUT" a.nid))) = [] := by
    refine List.filter_eq_nil_iff.mpr ?_
    intro a ha
    obtain ⟨r, hrm, hm, he⟩ := h a ha
    have hany : g.nodes.any (fun r =>
        nodeMatches r "Reference" [("title", title)] && hasEdge g r.nid "IS_ABOUT" a.nid) = true :=
      List.any_eq_true.mpr ⟨r, hrm, by simp [hm, he]⟩
    simp [hany]
  simp only [createReferenceOn, hf, List.foldl_nil]

/-! ### C10 -/

/-- C10: for every input, the private helpers `_connect_branch` and
`_connect_topics` are extensionally equal — they assemble the same query
text, return the same state and records, and raise the same
invalid-argument error for labels outside Trunk/Branch. -/
theorem c10_connect_topics_equals_connect_branch :
    (∀ (g : Graph) (from_branch parent_label to_parent : String),
      _connect_topics g from_branch parent_label to_parent
        = _connect_branch g from_branch parent_label to_parent)
    ∧ ∀ parent_label : String,
        connectTopicsQuery parent_label = connectBranchQuery parent_label := by
  exact ⟨fun g fb pl tp => rfl, fun pl => rfl⟩

end TopicGraph

namespace TopicGraph

/-! ### C6 -/

/-- C6: every operation taking a Trunk/Branch discriminator, handed any
label outside that set, raises the invalid-argument `ValueError`
synchronously — it returns `Except.error` (no new store state is produced,
so the store is unchanged) without running any query.  For
`_cross_reference` this covers both of its label arguments. -/
theorem c6_invalid_label_rejected (g : Graph) (L s1 s2 s3 s4 : String)
    (hL : (L == "Trunk") = false ∧ (L == "Branch") = false) :
    _create_branch g s1 L s2 s3 = .error "Branch must be created on Trunk or Branch"
    ∧ _delete_branch g s1 L s2 = .error "Branch must belong to Trunk or Branch"
    ∧ _connect_branch g s1 L s2 = .error "Branch must belong to Trunk or Branch"
    ∧ _connect_topics g s1 L s2 = .error "Branch must belong to Trunk or Branch"
    ∧ _get_branches g L s1 = .error "Can fetch Branches only of Trunk or Branch"
    ∧ _create_reference g s1 s2 L s3 = .error "Reference must pertain to Trunk or Branch"
    ∧ _cross_reference g s1 L s2 s4 s3 = .error "Reference must pertain to Trunk or Branch"
    ∧ _cross_reference g s1 "Trunk" s2 L s3 = .error "Reference must pertain to Trunk or Branch"
    ∧ _cross_reference g s1 "Branch" s2 L s3 = .error "Reference must pertain to Trunk or Branch"
    ∧ _get_references g L s1 = .error "Reference must belong to Trunk or Branch"
    ∧ _delete_reference g s1 L s2 = .error "Reference must belong to Trunk or Branch" := by
  obtain ⟨h1, h2⟩ := hL
  refine ⟨?_, ?_, ?_, ?_, ?_, ?_, ?_, ?_, ?_, ?_, ?_⟩ <;>
    simp [_create_branch, _delete_branch, _connect_branch, _connect_topics, _get_branches,
      _create_reference, _cross_reference, _get_references, _delete_reference, h1, h2]

/-- Witness for C6 at the concrete label `Leaf` on a concrete store. -/
theorem c6_invalid_label_rejected_witness :
    _create_branch gMath "Algebra" "Leaf" "Math" "" =
      .error "Branch must be created on Trunk or Branch"
    ∧ _delete_branch gMath "Algebra" "Leaf" "Math" =
      .error "Branch must belong to Trunk or Branch"
    ∧ _connect_branch gMath "Algebra" "Leaf" "Math" =
      .error "Branch must belong to Trunk or Branch"
    ∧ _connect_topics gMath "Algebra" "Leaf" "Math" =
      .error "Branch must belong to Trunk or Branch"
    ∧ _get_branches gMath "Leaf" "Algebra" =
      .error "Can fetch Branches only of Trunk or Branch"
    ∧ _create_reference gMath "Algebra" "u" "Leaf" "Math" =
      .error "Reference must pertain to Trunk or Branch"
    ∧ _cross_reference gMath "Algebra" "Leaf" "u" "x" "Math" =
      .error "Reference must pertain to Trunk or Branch"
    ∧ _cross_reference gMath "Algebra" "Trunk" "u" "Leaf" "Math" =
      .error "Reference must pertain to Trunk or Branch"
    ∧ _cross_reference gMath "Algebra" "Branch" "u" "Leaf" "Math" =
      .error "Reference must pertain to Trunk or Branch"
    ∧ _get_references gMath "Leaf" "Algebra" =
      .error "Reference must belong to Trunk or Branch"
    ∧ _delete_reference gMath "Algebra" "Leaf" "Math" =
      .error "Reference must belong to Trunk or Branch" :=
  c6_invalid_label_rejected gMath "Leaf" "Algebra" "Math" "" "u" ⟨rfl, rfl⟩

/-! ### C3 -/

/-- C3: when the requested edge already exists (every parent/subject the
pattern matches already carries the guarded edge), `create_branch` and
`create_reference` find it in their existence check and return an empty
result — `Except.ok` with no rows and the store unchanged — rather than
raising an error, and create no new edge. -/
theorem c3_existing_edge_yields_empty_result (g : Graph)
    (bname plabel pname note title url alabel aname : String)
    (hpl : plabel = "Trunk" ∨ plabel = "Branch")
    (hal : alabel = "Trunk" ∨ alabel = "Branch")
    (hb : ∀ p ∈ g.matching plabel [("name", pname)], ∃ b ∈ g.nodes,
      nodeMatches b "Branch" [("name", bname)] = true ∧
      hasEdge g b.nid "BELONGS_TO" p.nid = true)
    (hr : ∀ a ∈ g.matching alabel [("name", aname)], ∃ r ∈ g.nodes,
      nodeMatches r "Reference" [("title", title)] = true ∧
      hasEdge g r.nid "IS_ABOUT" a.nid = true) :
    _create_branch g bname plabel pname note = .ok (g, [])
    ∧ _create_reference g title url alabel aname = .ok (g, []) := by
  constructor
  · rcases hpl with rfl | rfl <;>
      simp [_create_branch, createBranchOn_alreadyExists g _ bname pname note hb]
  · rcases hal with rfl | rfl <;>
      simp [_create_reference, createReferenceOn_alreadyExists g _ title url aname hr]

/-- Witness for C3: the second `create_branch("Algebra","Trunk","Math")`
and the second `create_reference("Euclid","http://x","Trunk","Math")`
return empty results on a store already holding both edges. -/
theorem c3_existing_edge_yields_empty_result_witness :
    _create_branch gFull "Algebra" "Trunk" "Math" "intro" = .ok (gFull, [])
    ∧ _create_reference gFull "Euclid" "http://x" "Trunk" "Math" = .ok (gFull, []) :=
  c3_existing_edge_yields_empty_result gFull "Algebra" "Trunk" "Math" "intro"
    "Euclid" "http://x" "Trunk" "Math" (Or.inl rfl) (Or.inl rfl) (by decide) (by decide)

end TopicGraph

namespace TopicGraph

/-! ### C4 -/

/-- If either endpoint pattern matches nothing, the `_connect_branch`
body produces no rows and leaves the store untouched. -/
lemma connectBranchOn_no_match (g : Graph) (L fb tp : String)
    (h : g.matching "Branch" [("name", fb)] = [] ∨ g.matching L [("name", tp)] = []) :
    connectBranchOn g L fb tp = (g, []) := by
  rcases h with h | h
  · simp only [connectBranchOn, h, List.foldl_nil]
  · simp only [connectBranchOn, h, List.foldl_nil]
    exact foldl_acc_const _ _

/-- If no row matches the reference-side pattern, the `_cross_reference`
body produces no rows and leaves the store untouched. -/
lemma crossReferenceOn_no_ref (g : Graph) (CL TL title ca toa : String)
    (h : ∀ e ∈ g.edges, ∀ r ∈ g.nodes, ∀ c ∈ g.nodes,
      ¬(e.rel = "IS_ABOUT" ∧ r.nid = e.src ∧ nodeMatches r "Reference" [("title", title)] = true ∧
        c.nid = e.dst ∧ nodeMatches c CL [("name", ca)] = true)) :
    crossReferenceOn g CL TL title ca toa = (g, []) := by
  have h0 : ∀ e ∈ g.edges,
      (if e.rel == "IS_ABOUT" then
        (g.nodes.filter (fun r => r.nid == e.src &&
          nodeMatches r "Reference" [("title", title)])).flatMap
          (fun r => (g.nodes.filter (fun c => c.nid == e.dst &&
            nodeMatches c CL [("name", ca)])).map (fun _ => r))
      else []) = [] := by
    intro e he
    by_cases hrel : (e.rel == "IS_ABOUT") = true
    · have hinner : ∀ r ∈ g.nodes.filter (fun r => r.nid == e.src &&
          nodeMatches r "Reference" [("title", title)]),
          (g.nodes.filter (fun c => c.nid == e.dst &&
            nodeMatches c CL [("name", ca)])).map (fun _ => r) = [] := by
        intro r hrf
        obtain ⟨hrmem, hrb⟩ := List.mem_filter.mp hrf
        obtain ⟨hr1, hr2⟩ := Bool.and_eq_true_iff.mp hrb
        have hc0 : g.nodes.filter (fun c => c.nid == e.dst &&
            nodeMatches c CL [("name", ca)]) = [] := by
          refine List.filter_eq_nil_iff.mpr ?_
          intro c hc hcc
          obtain ⟨hc1, hc2⟩ := Bool.and_eq_true_iff.mp hcc
          exact h e he r hrmem c hc ⟨eq_of_beq hrel, eq_of_beq hr1, hr2, eq_of_beq hc1, hc2⟩
        simp [hc0]
      simp only [hrel, if_true]
      exact flatMap_eq_nil_of_forall _ _ hinner
    · simp [hrel]
  simp only [crossReferenceOn, flatMap_eq_nil_of_forall _ _ h0, List.foldl_nil]

end TopicGraph

namespace TopicGraph

/-- C4 (amended): `connect_branch` attaches only already-existing
endpoints — if either endpoint pattern does not resolve it returns an
empty result, raises no error and writes nothing; `cross_reference`
behaves that way only on its reference/current-subject side: when no
`(ref {title})-[:IS_ABOUT]->(current subject)` row matches, it returns an
empty result, raises no error and writes nothing.  (When the reference
side does resolve but the target does not exist, `MERGE` creates the
target — see the counterexample.) -/
theorem c4_missing_endpoint_empty_result (g : Graph)
    (fb plabel tp title cl ca tl toa : String)
    (hpl : plabel = "Trunk" ∨ plabel = "Branch")
    (hcl : cl = "Trunk" ∨ cl = "Branch")
    (htl : tl = "Trunk" ∨ tl = "Branch")
    (hconn : g.matching "Branch" [("name", fb)] = [] ∨ g.matching plabel [("name", tp)] = [])
    (hcross : ∀ e ∈ g.edges, ∀ r ∈ g.nodes, ∀ c ∈ g.nodes,
      ¬(e.rel = "IS_ABOUT" ∧ r.nid = e.src ∧ nodeMatches r "Reference" [("title", title)] = true ∧
        c.nid = e.dst ∧ nodeMatches c cl [("name", ca)] = true)) :
    _connect_branch g fb plabel tp = .ok (g, [])
    ∧ _cross_reference g title cl ca tl toa = .ok (g, []) := by
  constructor
  · rcases hpl with rfl | rfl <;>
      simp [_connect_branch, connectBranchOn_no_match g _ fb tp hconn]
  · rcases hcl with rfl | rfl <;> rcases htl with rfl | rfl <;>
      simp [_cross_reference, crossReferenceOn_no_ref g _ _ title ca toa hcross]

/-- Witness for C4 (amended): `connect_branch("Algebra","Trunk","Science")`
with no `Science` Trunk, and a cross-reference whose reference side does
not resolve, both yield empty results and no error. -/
theorem c4_missing_endpoint_empty_result_witness :
    _connect_branch gMathAlg "Algebra" "Trunk" "Science" = .ok (gMathAlg, [])
    ∧ _cross_reference gMathAlg "Euclid" "Trunk" "Math" "Trunk" "Science" = .ok (gMathAlg, []) :=
  c4_missing_endpoint_empty_result gMathAlg "Algebra" "Trunk" "Science" "Euclid" "Trunk" "Math"
    "Trunk" "Science" (Or.inl rfl) (Or.inl rfl) (Or.inl rfl) (Or.inr (by decide)) (by decide)

/-- Counterexample to C4 as stated: on a store holding Trunk `Math` and
Reference `Euclid` about it, `cross_reference("Euclid","Trunk","Math",
"Trunk","Science")` with no `Science` Trunk present does NOT return an
empty result — the unbound `MERGE` target creates a brand-new `Science`
Trunk node plus an `IS_ABOUT` edge and returns one row. -/
theorem c4_counterexample :
    gRefMath.matching "Trunk" [("name", "Science")] = []
    ∧ _cross_reference gRefMath "Euclid" "Trunk" "Math" "Trunk" "Science" =
        .ok (⟨[⟨0, "Trunk", [("name", "Math")]⟩,
               ⟨1, "Reference", [("title", "Euclid"), ("url", "http://x")]⟩,
               ⟨2, "Trunk", [("name", "Science")]⟩],
              [⟨1, "IS_ABOUT", 0⟩, ⟨1, "IS_ABOUT", 2⟩], 3⟩,
             [[("title", "Euclid"), ("to", "Science")]]) :=
  ⟨rfl, rfl⟩

end TopicGraph

namespace TopicGraph

/-! ### C5 -/

/-- Anything whose id belongs to a detach-deleted node disappears: no
surviving node has that id and no surviving edge touches it. -/
lemma detachDelete_removes (g : Graph) (vs : List Node) (i : Nat)
    (hi : i ∈ vs.map (fun n => n.nid)) :
    (∀ n ∈ (detachDelete g vs).nodes, n.nid ≠ i)
    ∧ ∀ e ∈ (detachDelete g vs).edges, e.src ≠ i ∧ e.dst ≠ i := by
  have hc : (vs.map (fun n => n.nid)).contains i = true := List.elem_iff.mpr hi
  constructor
  · intro n hn heq
    simp only [detachDelete, List.mem_filter] at hn
    rw [heq, hc] at hn
    simp at hn
  · intro e he
    simp only [detachDelete, List.mem_filter] at he
    obtain ⟨-, hb⟩ := he
    obtain ⟨h1, h2⟩ := Bool.and_eq_true_iff.mp hb
    constructor
    · intro heq; rw [heq, hc] at h1; simp at h1
    · intro heq; rw [heq, hc] at h2; simp at h2

/-- A branch attached to a matched parent is matched by the
`_delete_branch` pattern. -/
lemma mem_deleteBranch_victims (g : Graph) (L bname pname : String) (b p : Node)
    (hbn : b ∈ g.nodes) (hbm : nodeMatches b "Branch" [("name", bname)] = true)
    (hpn : p ∈ g.nodes) (hpm : nodeMatches p L [("name", pname)] = true)
    (hbe : (⟨b.nid, "BELONGS_TO", p.nid⟩ : Edge) ∈ g.edges) :
    b ∈ g.nodes.filter (fun b => nodeMatches b "Branch" [("name", bname)] &&
      g.edges.any (fun e => e.src == b.nid && e.rel == "BELONGS_TO" &&
        g.nodes.any (fun q => q.nid == e.dst && nodeMatches q L [("name", pname)]))) := by
  refine List.mem_filter.mpr ⟨hbn, ?_⟩
  have hany2 : g.nodes.any (fun q => q.nid == p.nid && nodeMatches q L [("name", pname)]) = true :=
    List.any_eq_true.mpr ⟨p, hpn, by simp [hpm]⟩
  have hany : g.edges.any (fun e => e.src == b.nid && e.rel == "BELONGS_TO" &&
      g.nodes.any (fun q => q.nid == e.dst && nodeMatches q L [("name", pname)])) = true :=
    List.any_eq_true.mpr ⟨⟨b.nid, "BELONGS_TO", p.nid⟩, hbe, by simp [hany2]⟩
  simp [hbm, hany]

/-- A reference attached to a matched subject is matched by the
`_delete_reference` pattern. -/
lemma mem_deleteReference_victims (g : Graph) (L title aname : String) (r a : Node)
    (hrn : r ∈ g.nodes) (hrm : nodeMatches r "Reference" [("title", title)] = true)
    (han : a ∈ g.nodes) (ham : nodeMatches a L [("name", aname)] = true)
    (hre : (⟨r.nid, "IS_ABOUT", a.nid⟩ : Edge) ∈ g.edges) :
    r ∈ g.nodes.filter (fun r => nodeMatches r "Reference" [("title", title)] &&
      g.edges.any (fun e => e.src == r.nid && e.rel == "IS_ABOUT" &&
        g.nodes.any (fun q => q.nid == e.dst && nodeMatches q L [("name", aname)]))) := by
  refine List.mem_filter.mpr ⟨hrn, ?_⟩
  have hany2 : g.nodes.any (fun q => q.nid == a.nid && nodeMatches q L [("name", aname)]) = true :=
    List.any_eq_true.mpr ⟨a, han, by simp [ham]⟩
  have hany : g.edges.any (fun e => e.src == r.nid && e.rel == "IS_ABOUT" &&
      g.nodes.any (fun q => q.nid == e.dst && nodeMatches q L [("name", aname)])) = true :=
    List.any_eq_true.mpr ⟨⟨r.nid, "IS_ABOUT", a.nid⟩, hre, by simp [hany2]⟩
  simp [hrm, hany]

/-- Deleting a branch with respect to one matched parent removes the
branch node and every incident edge. -/
lemma delete_branch_scoped (g : Graph) (L bname pname : String) (b p : Node)
    (hbn : b ∈ g.nodes) (hbm : nodeMatches b "Branch" [("name", bname)] = true)
    (hpn : p ∈ g.nodes) (hpm : nodeMatches p L [("name", pname)] = true)
    (hbe : (⟨b.nid, "BELONGS_TO", p.nid⟩ : Edge) ∈ g.edges) :
    (∀ n ∈ (deleteBranchOn g L bname pname).nodes, n.nid ≠ b.nid)
    ∧ ∀ e ∈ (deleteBranchOn g L bname pname).edges, e.src ≠ b.nid ∧ e.dst ≠ b.nid := by
  have h := detachDelete_removes g _ b.nid
    (List.mem_map_of_mem _ (mem_deleteBranch_victims g L bname pname b p hbn hbm hpn hpm hbe))
  simpa [deleteBranchOn] using h

/-- Deleting a reference with respect to one matched subject removes the
reference node and every incident edge. -/
lemma delete_reference_scoped (g : Graph) (L title aname : String) (r a : Node)
    (hrn : r ∈ g.nodes) (hrm : nodeMatches r "Reference" [("title", title)] = true)
    (han : a ∈ g.nodes) (ham : nodeMatches a L [("name", aname)] = true)
    (hre : (⟨r.nid, "IS_ABOUT", a.nid⟩ : Edge) ∈ g.edges) :
    (∀ n ∈ (deleteReferenceOn g L title aname).nodes, n.nid ≠ r.nid)
    ∧ ∀ e ∈ (deleteReferenceOn g L title aname).edges, e.src ≠ r.nid ∧ e.dst ≠ r.nid := by
  have h := detachDelete_removes g _ r.nid
    (List.mem_map_of_mem _ (mem_deleteReference_victims g L title aname r a hrn hrm han ham hre))
  simpa [deleteReferenceOn] using h

/-- C5 (amended): by-name deletion scoped to one parent/subject is
node-scoped, not edge-scoped — `delete_branch` with one parent's label and
name removes the branch node and EVERY edge incident to it, including the
edge to any other parent; `delete_reference` likewise removes the
reference node and all its `IS_ABOUT` edges.  (The behaviour the claim
states — removing only the edge to the named parent — is refuted by the
counterexample.) -/
theorem c5_delete_removes_all_edges (g₁ g₂ : Graph)
    (bname plabel pname title alabel aname : String) (b p r a : Node)
    (hpl : plabel = "Trunk" ∨ plabel = "Branch")
    (hal : alabel = "Trunk" ∨ alabel = "Branch")
    (hbn : b ∈ g₁.nodes) (hbm : nodeMatches b "Branch" [("name", bname)] = true)
    (hpn : p ∈ g₁.nodes) (hpm : nodeMatches p plabel [("name", pname)] = true)
    (hbe : (⟨b.nid, "BELONGS_TO", p.nid⟩ : Edge) ∈ g₁.edges)
    (hrn : r ∈ g₂.nodes) (hrm : nodeMatches r "Reference" [("title", title)] = true)
    (han : a ∈ g₂.nodes) (ham : nodeMatches a alabel [("name", aname)] = true)
    (hre : (⟨r.nid, "IS_ABOUT", a.nid⟩ : Edge) ∈ g₂.edges) :
    (∃ g', _delete_branch g₁ bname plabel pname = .ok g'
      ∧ (∀ n ∈ g'.nodes, n.nid ≠ b.nid)
      ∧ ∀ e ∈ g'.edges, e.src ≠ b.nid ∧ e.dst ≠ b.nid)
    ∧ ∃ g', _delete_reference g₂ title alabel aname = .ok g'
      ∧ (∀ n ∈ g'.nodes, n.nid ≠ r.nid)
      ∧ ∀ e ∈ g'.edges, e.src ≠ r.nid ∧ e.dst ≠ r.nid := by
  constructor
  · rcases hpl with rfl | rfl
    · exact ⟨_, by simp [_delete_branch],
        delete_branch_scoped g₁ "Trunk" bname pname b p hbn hbm hpn hpm hbe⟩
    · exact ⟨_, by simp [_delete_branch],
        delete_branch_scoped g₁ "Branch" bname pname b p hbn hbm hpn hpm hbe⟩
  · rcases hal with rfl | rfl
    · exact ⟨_, by simp [_delete_reference],
        delete_reference_scoped g₂ "Trunk" title aname r a hrn hrm han ham hre⟩
    · exact ⟨_, by simp [_delete_reference],
        delete_reference_scoped g₂ "Branch" title aname r a hrn hrm han ham hre⟩

/-- Witness for C5 (amended): a branch under `T1` and `T2` deleted with
respect to `T1`, and a reference about `T1` and `T2` deleted with respect
to `T1`, disappear entirely. -/
theorem c5_delete_removes_all_edges_witness :
    (∃ g', _delete_branch gTwoParents "A" "Trunk" "T1" = .ok g'
      ∧ (∀ n ∈ g'.nodes, n.nid ≠ 2)
      ∧ ∀ e ∈ g'.edges, e.src ≠ 2 ∧ e.dst ≠ 2)
    ∧ ∃ g', _delete_reference gRefTwoSubjects "R" "Trunk" "T1" = .ok g'
      ∧ (∀ n ∈ g'.nodes, n.nid ≠ 2)
      ∧ ∀ e ∈ g'.edges, e.src ≠ 2 ∧ e.dst ≠ 2 :=
  c5_delete_removes_all_edges gTwoParents gRefTwoSubjects "A" "Trunk" "T1" "R" "Trunk" "T1"
    ⟨2, "Branch", [("name", "A"), ("note", "")]⟩ ⟨0, "Trunk", [("name", "T1")]⟩
    ⟨2, "Reference", [("title", "R"), ("url", "http://r")]⟩ ⟨0, "Trunk", [("name", "T1")]⟩
    (Or.inl rfl) (Or.inl rfl)
    (by decide) (by decide) (by decide) (by decide) (by decide)
    (by decide) (by decide) (by decide) (by decide) (by decide)

/-- Counterexample to C5 as stated: branch `A` is attached to both `T1`
and `T2`; `delete_branch("A","Trunk","T1")` also removes the edge to `T2`
(the resulting store has no edges at all), and the analogous call removes
a two-subject reference's second edge as well. -/
theorem c5_counterexample :
    (⟨2, "BELONGS_TO", 1⟩ : Edge) ∈ gTwoParents.edges
    ∧ _delete_branch gTwoParents "A" "Trunk" "T1" =
        .ok ⟨[⟨0, "Trunk", [("name", "T1")]⟩, ⟨1, "Trunk", [("name", "T2")]⟩], [], 3⟩
    ∧ (⟨2, "IS_ABOUT", 1⟩ : Edge) ∈ gRefTwoSubjects.edges
    ∧ _delete_reference gRefTwoSubjects "R" "Trunk" "T1" =
        .ok ⟨[⟨0, "Trunk", [("name", "T1")]⟩, ⟨1, "Trunk", [("name", "T2")]⟩], [], 3⟩ :=
  ⟨by decide, rfl, by decide, rfl⟩

end TopicGraph

namespace TopicGraph

/-! ### C8 -/

/-- C8: `delete_trunk` removes every matched Trunk node and every
relationship incident to it (no orphaned edges); Branch and Reference
nodes that were connected to it remain in the store; every edge not
incident to a matched Trunk survives (only the edges to the deleted Trunk
are removed); deleting a non-existent Trunk is a silent no-op, not an
error. -/
theorem c8_delete_trunk_cascade (g : Graph) (name : String)
    (hnd : (g.nodes.map (fun n => n.nid)).Nodup) :
    (∀ t ∈ g.matching "Trunk" [("name", name)],
      (∀ n ∈ (_delete_trunk g name).nodes, n.nid ≠ t.nid)
      ∧ ∀ e ∈ (_delete_trunk g name).edges, e.src ≠ t.nid ∧ e.dst ≠ t.nid)
    ∧ (∀ b ∈ g.nodes, b.label ≠ "Trunk" → b ∈ (_delete_trunk g name).nodes)
    ∧ (∀ e ∈ g.edges,
        (∀ t ∈ g.matching "Trunk" [("name", name)], e.src ≠ t.nid ∧ e.dst ≠ t.nid) →
        e ∈ (_delete_trunk g name).edges)
    ∧ (g.matching "Trunk" [("name", name)] = [] → _delete_trunk g name = g) := by
  refine ⟨?_, ?_, ?_, ?_⟩
  · intro t ht
    exact detachDelete_removes g _ t.nid (List.mem_map_of_mem _ ht)
  · intro b hb hlbl
    have hnotin : ¬ b.nid ∈ (g.matching "Trunk" [("name", name)]).map (fun n => n.nid) := by
      intro hmem
      obtain ⟨t, htv, hte⟩ := List.mem_map.mp hmem
      have htn : t ∈ g.nodes := (List.mem_filter.mp htv).1
      have htl : t.label = "Trunk" := by
        have hh := (List.mem_filter.mp htv).2
        exact eq_of_beq (Bool.and_eq_true_iff.mp hh).1
      have hbt : b = t := List.inj_on_of_nodup_map hnd hb htn hte.symm
      exact hlbl (hbt ▸ htl)
    show b ∈ (detachDelete g (g.matching "Trunk" [("name", name)])).nodes
    refine List.mem_filter.mpr ⟨hb, ?_⟩
    simp only [Bool.not_eq_true']
    exact (Bool.not_eq_true _).mp (fun hcon => hnotin (List.elem_iff.mp hcon))
  · intro e he hnon
    show e ∈ (detachDelete g (g.matching "Trunk" [("name", name)])).edges
    simp only [detachDelete]
    refine List.mem_filter.mpr ⟨he, ?_⟩
    have hsrc : ((g.matching "Trunk" [("name", name)]).map (fun n => n.nid)).contains e.src
        = false := by
      rw [Bool.eq_false_iff]
      intro hc
      obtain ⟨t, htv, hte⟩ := List.mem_map.mp (List.elem_iff.mp hc)
      exact (hnon t htv).1 hte.symm
    have hdst : ((g.matching "Trunk" [("name", name)]).map (fun n => n.nid)).contains e.dst
        = false := by
      rw [Bool.eq_false_iff]
      intro hc
      obtain ⟨t, htv, hte⟩ := List.mem_map.mp (List.elem_iff.mp hc)
      exact (hnon t htv).2 hte.symm
    rw [hsrc, hdst]
    rfl
  · intro h0
    simp [_delete_trunk, detachDelete, h0]

/-- Witness for C8 on a store holding a Trunk, a Branch and a Reference. -/
theorem c8_delete_trunk_cascade_witness :
    (∀ t ∈ gFull.matching "Trunk" [("name", "Math")],
      (∀ n ∈ (_delete_trunk gFull "Math").nodes, n.nid ≠ t.nid)
      ∧ ∀ e ∈ (_delete_trunk gFull "Math").edges, e.src ≠ t.nid ∧ e.dst ≠ t.nid)
    ∧ (∀ b ∈ gFull.nodes, b.label ≠ "Trunk" → b ∈ (_delete_trunk gFull "Math").nodes)
    ∧ (∀ e ∈ gFull.edges,
        (∀ t ∈ gFull.matching "Trunk" [("name", "Math")], e.src ≠ t.nid ∧ e.dst ≠ t.nid) →
        e ∈ (_delete_trunk gFull "Math").edges)
    ∧ (gFull.matching "Trunk" [("name", "Math")] = [] → _delete_trunk gFull "Math" = gFull) :=
  c8_delete_trunk_cascade gFull "Math" (by decide)

end TopicGraph

namespace TopicGraph

/-! ### C2 -/

/-- Counterexample to C2 as stated: on `gMathAlg` the Branch entity with
natural key (name `Algebra`, parent Trunk `Math`) is present, yet the
second `create_branch` call returns the empty record list — it does not
return the existing entity. -/
theorem c2_counterexample :
    ((⟨1, "Branch", [("name", "Algebra"), ("note", "intro")]⟩ : Node) ∈ gMathAlg.nodes
      ∧ hasEdge gMathAlg 1 "BELONGS_TO" 0 = true)
    ∧ _create_branch gMathAlg "Algebra" "Trunk" "Math" "intro" = .ok (gMathAlg, []) :=
  ⟨⟨by decide, by decide⟩, rfl⟩

/-- C2 (amended): creation is an idempotent upsert.  For Trunk: create if
absent; calling `create_trunk` twice with the same name leaves exactly one
Trunk node with that name and the second call returns exactly the first
call's state and result.  For Branch and Reference: when an entity with
the same natural key (name/title plus parent/subject edge) is present, the
call creates no new node and returns an empty result (not the existing
entity — see the counterexample). -/
theorem c2_idempotent_upsert (g : Graph)
    (tname bname plabel pname note title url alabel aname : String)
    (htr : g.matching "Trunk" [("name", tname)] = [])
    (hpl : plabel = "Trunk" ∨ plabel = "Branch")
    (hal : alabel = "Trunk" ∨ alabel = "Branch")
    (hb : ∀ p ∈ g.matching plabel [("name", pname)], ∃ b ∈ g.nodes,
      nodeMatches b "Branch" [("name", bname)] = true ∧
      hasEdge g b.nid "BELONGS_TO" p.nid = true)
    (hr : ∀ a ∈ g.matching alabel [("name", aname)], ∃ r ∈ g.nodes,
      nodeMatches r "Reference" [("title", title)] = true ∧
      hasEdge g r.nid "IS_ABOUT" a.nid = true) :
    (((_create_trunk g tname).1.matching "Trunk" [("name", tname)]).length = 1)
    ∧ _create_trunk (_create_trunk g tname).1 tname = _create_trunk g tname
    ∧ _create_branch g bname plabel pname note = .ok (g, [])
    ∧ _create_reference g title url alabel aname = .ok (g, []) := by
  have hm0 : nodeMatches ((addNode g "Trunk" [("name", tname)]).2) "Trunk"
      [("name", tname)] = true := by
    simp [addNode, nodeMatches, List.lookup]
  have hstep : _create_trunk g tname =
      ((addNode g "Trunk" [("name", tname)]).1, some tname) := by
    simp [_create_trunk, mergeNode, htr, addNode, getProp, List.lookup]
  have hm1 : (addNode g "Trunk" [("name", tname)]).1.matching "Trunk" [("name", tname)]
      = [(addNode g "Trunk" [("name", tname)]).2] := by
    have hg : g.nodes.filter (fun n => nodeMatches n "Trunk" [("name", tname)]) = [] := htr
    simp only [addNode] at hm0
    simp only [addNode, Graph.matching, List.filter_append, hg, List.nil_append]
    simp [hm0]
  refine ⟨?_, ?_, ?_, ?_⟩
  · rw [hstep]
    simp [hm1]
  · rw [hstep]
    simp only [_create_trunk, mergeNode, hm1]
    simp [addNode, getProp, List.lookup]
  · rcases hpl with rfl | rfl <;>
      simp [_create_branch, createBranchOn_alreadyExists g _ bname pname note hb]
  · rcases hal with rfl | rfl <;>
      simp [_create_reference, createReferenceOn_alreadyExists g _ title url aname hr]

/-- Witness for C2 (amended) on `gFull` with the fresh Trunk name `Physics`. -/
theorem c2_idempotent_upsert_witness :
    (((_create_trunk gFull "Physics").1.matching "Trunk" [("name", "Physics")]).length = 1)
    ∧ _create_trunk (_create_trunk gFull "Physics").1 "Physics" = _create_trunk gFull "Physics"
    ∧ _create_branch gFull "Algebra" "Trunk" "Math" "x" = .ok (gFull, [])
    ∧ _create_reference gFull "Euclid" "http://y" "Trunk" "Math" = .ok (gFull, []) :=
  c2_idempotent_upsert gFull "Physics" "Algebra" "Trunk" "Math" "x" "Euclid" "http://y"
    "Trunk" "Math" (by decide) (Or.inl rfl) (Or.inl rfl) (by decide) (by decide)

end TopicGraph

namespace TopicGraph

/-! ### C7 -/

/-- If the (unique) matched subject has no edge from any reference of the
given title, the `_create_reference` body creates a fresh reference node
and one `IS_ABOUT` edge to the subject and returns one row. -/
lemma createReferenceOn_fresh (g : Graph) (L t u nb : String) (b : Node)
    (hB : g.matching L [("name", nb)] = [b])
    (hNB : ∀ r ∈ g.nodes, nodeMatches r "Reference" [("title", t)] = true →
      hasEdge g r.nid "IS_ABOUT" b.nid = false) :
    createReferenceOn g L t u nb =
      (addEdge (addNode g "Reference" [("title", t), ("url", u)]).1
        (addNode g "Reference" [("title", t), ("url", u)]).2.nid "IS_ABOUT" b.nid,
       [[("title", getProp (addNode g "Reference" [("title", t), ("url", u)]).2 "title"),
         ("url", getProp (addNode g "Reference" [("title", t), ("url", u)]).2 "url"),
         ("about", getProp b "name")]]) := by
  have hanyb : (g.nodes.any (fun r =>
      nodeMatches r "Reference" [("title", t)] && hasEdge g r.nid "IS_ABOUT" b.nid)) = false := by
    rw [Bool.eq_false_iff]
    intro hc
    obtain ⟨r, hr, hrc⟩ := List.any_eq_true.mp hc
    obtain ⟨h1, h2⟩ := Bool.and_eq_true_iff.mp hrc
    rw [hNB r hr h1] at h2
    exact Bool.false_ne_true h2
  have habouts : (g.matching L [("name", nb)]).filter
      (fun a => !(g.nodes.any (fun r =>
        nodeMatches r "Reference" [("title", t)] && hasEdge g r.nid "IS_ABOUT" a.nid))) = [b] := by
    rw [hB]
    simp [List.filter, hanyb]
  have hms : g.nodes.filter (fun n => nodeMatches n "Reference" [("title", t), ("url", u)] &&
      hasEdge g n.nid "IS_ABOUT" b.nid) = [] := by
    refine List.filter_eq_nil_iff.mpr ?_
    intro n hn hc
    obtain ⟨h1, h2⟩ := Bool.and_eq_true_iff.mp hc
    rw [hNB n hn (nodeMatches_head n "Reference" _ _ h1)] at h2
    exact Bool.false_ne_true h2
  simp only [createReferenceOn, habouts, List.foldl_cons, List.foldl_nil, mergePatternTo, hms,
    List.isEmpty_nil, if_true, List.nil_append, List.map_cons, List.map_nil]

/-- A reference titled `t` in the store with an `IS_ABOUT` edge to node
`aid` makes the title-scoped edge count positive. -/
lemma isAboutCount_pos (g : Graph) (t : String) (aid : Nat) (r : Node) (e : Edge)
    (hr : r ∈ g.nodes) (hm : nodeMatches r "Reference" [("title", t)] = true)
    (he : e ∈ g.edges) (h1 : e.src = r.nid) (h2 : e.rel = "IS_ABOUT") (h3 : e.dst = aid) :
    1 ≤ isAboutCount g t aid := by
  have hany : g.nodes.any (fun n => n.nid == e.src && nodeMatches n "Reference" [("title", t)])
      = true := List.any_eq_true.mpr ⟨r, hr, by simp [h1, hm]⟩
  have hmem : e ∈ g.edges.filter (fun e => e.rel == "IS_ABOUT" && e.dst == aid &&
      g.nodes.any (fun n => n.nid == e.src && nodeMatches n "Reference" [("title", t)])) :=
    List.mem_filter.mpr ⟨he, by simp [h2, h3, hany]⟩
  exact List.length_pos.mpr (List.ne_nil_of_mem hmem)

/-- C7: a Reference title already attached to subject A can be re-attached
under a different subject B: the call succeeds (non-empty result) and
afterwards independent `IS_ABOUT` edges for that title exist to A and to
B; re-creating the same title under the same subject A is a no-op that
returns the empty result and adds no edge. -/
theorem c7_reference_reattachment (g : Graph) (t u u2 la na lb nb : String) (a b : Node)
    (hla : la = "Trunk" ∨ la = "Branch")
    (hlb : lb = "Trunk" ∨ lb = "Branch")
    (hA : g.matching la [("name", na)] = [a])
    (hB : g.matching lb [("name", nb)] = [b])
    (hEA : ∃ r ∈ g.nodes, nodeMatches r "Reference" [("title", t)] = true ∧
      hasEdge g r.nid "IS_ABOUT" a.nid = true)
    (hNB : ∀ r ∈ g.nodes, nodeMatches r "Reference" [("title", t)] = true →
      hasEdge g r.nid "IS_ABOUT" b.nid = false) :
    (∃ g2 recs, _create_reference g t u lb nb = .ok (g2, recs) ∧ recs ≠ []
      ∧ 1 ≤ isAboutCount g2 t a.nid ∧ 1 ≤ isAboutCount g2 t b.nid)
    ∧ _create_reference g t u2 la na = .ok (g, []) := by
  obtain ⟨rA, hrA, hmA, heA⟩ := hEA
  obtain ⟨eA, heAg, heAc⟩ := List.any_eq_true.mp heA
  obtain ⟨hA12, hA3⟩ := Bool.and_eq_true_iff.mp heAc
  obtain ⟨hA1, hA2⟩ := Bool.and_eq_true_iff.mp hA12
  have hbody : ∀ L : String, g.matching L [("name", nb)] = [b] →
      ∃ g2 recs, createReferenceOn g L t u nb = (g2, recs) ∧ recs ≠ []
        ∧ 1 ≤ isAboutCount g2 t a.nid ∧ 1 ≤ isAboutCount g2 t b.nid := by
    intro L hBL
    refine ⟨_, _, createReferenceOn_fresh g L t u nb b hBL hNB, by simp, ?_, ?_⟩
    · refine isAboutCount_pos _ t a.nid rA eA ?_ hmA ?_ (eq_of_beq hA1) (eq_of_beq hA2)
        (eq_of_beq hA3)
      · exact List.mem_append_left _ hrA
      · exact List.mem_append_left _ heAg
    · refine isAboutCount_pos _ t b.nid (addNode g "Reference" [("title", t), ("url", u)]).2
        ⟨(addNode g "Reference" [("title", t), ("url", u)]).2.nid, "IS_ABOUT", b.nid⟩
        ?_ ?_ ?_ rfl rfl rfl
      · exact List.mem_append_right _ (by simp [addNode])
      · simp [addNode, nodeMatches, List.lookup]
      · exact List.mem_append_right _ (by simp [addEdge, addNode])
  constructor
  · rcases hlb with rfl | rfl
    · obtain ⟨g2, recs, hrun, hne, h1, h2⟩ := hbody "Trunk" hB
      exact ⟨g2, recs, by simp [_create_reference, hrun], hne, h1, h2⟩
    · obtain ⟨g2, recs, hrun, hne, h1, h2⟩ := hbody "Branch" hB
      exact ⟨g2, recs, by simp [_create_reference, hrun], hne, h1, h2⟩
  · have halready : ∀ a' ∈ g.matching la [("name", na)], ∃ r ∈ g.nodes,
        nodeMatches r "Reference" [("title", t)] = true ∧
        hasEdge g r.nid "IS_ABOUT" a'.nid = true := by
      intro a' ha'
      rw [hA, List.mem_singleton] at ha'
      exact ⟨rA, hrA, hmA, ha' ▸ heA⟩
    rcases hla with rfl | rfl <;>
      simp [_create_reference, createReferenceOn_alreadyExists g _ t u2 na halready]

/-- Witness for C7: `Euclid` is about `Math`; re-attaching it to `Other`
succeeds with a new edge, re-attaching it to `Math` is an empty no-op. -/
theorem c7_reference_reattachment_witness :
    (∃ g2 recs, _create_reference gRefMathOther "Euclid" "http://x" "Trunk" "Other"
        = .ok (g2, recs) ∧ recs ≠ []
      ∧ 1 ≤ isAboutCount g2 "Euclid" 0 ∧ 1 ≤ isAboutCount g2 "Euclid" 2)
    ∧ _create_reference gRefMathOther "Euclid" "http://z" "Trunk" "Math"
        = .ok (gRefMathOther, []) :=
  c7_reference_reattachment gRefMathOther "Euclid" "http://x" "http://z" "Trunk" "Math"
    "Trunk" "Other" ⟨0, "Trunk", [("name", "Math")]⟩ ⟨2, "Trunk", [("name", "Other")]⟩
    (Or.inl rfl) (Or.inl rfl) (by decide) (by decide) (by decide) (by decide)

end TopicGraph

namespace TopicGraph

/-! ### C9 -/

/-- Counterexample to C9 as stated: `create_trunk` does not return a
sequence of records to its caller — on `gMath` the underlying `MERGE`
produces the one-row sequence `[trunk]`, but `_create_trunk` hands back
only the single scalar `some "Math"` projected from that row by
`result.single()['trunk']['name']` (and the public wrapper prints it,
returning nothing). -/
theorem c9_counterexample :
    mergeNode gMath "Trunk" [("name", "Math")]
      = (gMath, [⟨0, "Trunk", [("name", "Math")]⟩])
    ∧ _create_trunk gMath "Math" = (gMath, some "Math") :=
  ⟨rfl, rfl⟩

/-- C9 (amended): `create_branch`, `create_reference`, `connect_branch`,
`cross_reference`, `get_trunks`, `get_branches` and `get_references`
return a sequence of zero or more records delivered through the success
constructor even when empty, so the zero-records outcome is never
conflated with the error outcome used for failures; `create_trunk`
instead returns a single scalar — the name `result.single()` projects
from its `MERGE` row sequence, which is never empty (on every store where
at most one Trunk carries the name, the scalar is always `some`).  The
public wrappers print these records — presentation the spec treats as
external. -/
theorem c9_results_are_record_sequences (g : Graph) (L1 L2 n1 n2 n3 : String)
    (h1 : L1 = "Trunk" ∨ L1 = "Branch") (h2 : L2 = "Trunk" ∨ L2 = "Branch")
    (htr : (g.matching "Trunk" [("name", n1)]).length ≤ 1) :
    (∃ s : String, (_create_trunk g n1).2 = some s)
    ∧ ((mergeNode g "Trunk" [("name", n1)]).2 ≠ [])
    ∧ (∃ gr, _create_branch g n1 L1 n2 n3 = .ok gr)
    ∧ (∃ gr, _create_reference g n1 n2 L1 n3 = .ok gr)
    ∧ (∃ gr, _connect_branch g n1 L1 n2 = .ok gr)
    ∧ (∃ gr, _cross_reference g n1 L1 n2 L2 n3 = .ok gr)
    ∧ (∃ rs, _get_branches g L1 n1 = .ok rs)
    ∧ (∃ rs, _get_references g L1 n1 = .ok rs)
    ∧ (∃ rs : List Rec, _get_trunks g = rs) := by
  have hct : ∃ s : String, (_create_trunk g n1).2 = some s := by
    rcases hms : g.matching "Trunk" [("name", n1)] with _ | ⟨t, ts⟩
    · refine ⟨getProp ⟨g.nextId, "Trunk", [("name", n1)]⟩ "name", ?_⟩
      simp [_create_trunk, mergeNode, addNode, hms]
    · have hts : ts = [] := by
        rw [hms] at htr
        simpa using htr
      subst hts
      refine ⟨getProp t "name", ?_⟩
      simp [_create_trunk, mergeNode, hms]
  refine ⟨hct, ?_, ?_, ?_, ?_, ?_, ?_, ?_, ⟨_, rfl⟩⟩
  · unfold mergeNode
    by_cases hms : (g.matching "Trunk" [("name", n1)]).isEmpty
    · simp [hms]
    · simp only [hms, if_false]
      simpa [List.isEmpty_iff] using hms
  all_goals rcases h1 with rfl | rfl <;> rcases h2 with rfl | rfl <;>
    simp [_create_branch, _create_reference, _connect_branch, _cross_reference,
      _get_branches, _get_references]

/-- Witness for C9 (amended) at concrete inputs on the `gMath` store. -/
theorem c9_results_are_record_sequences_witness :
    (∃ s : String, (_create_trunk gMath "Algebra").2 = some s)
    ∧ ((mergeNode gMath "Trunk" [("name", "Algebra")]).2 ≠ [])
    ∧ (∃ gr, _create_branch gMath "Algebra" "Trunk" "Math" "" = .ok gr)
    ∧ (∃ gr, _create_reference gMath "Algebra" "Math" "Trunk" "" = .ok gr)
    ∧ (∃ gr, _connect_branch gMath "Algebra" "Trunk" "Math" = .ok gr)
    ∧ (∃ gr, _cross_reference gMath "Algebra" "Trunk" "Math" "Trunk" "" = .ok gr)
    ∧ (∃ rs, _get_branches gMath "Trunk" "Algebra" = .ok rs)
    ∧ (∃ rs, _get_references gMath "Trunk" "Algebra" = .ok rs)
    ∧ (∃ rs : List Rec, _get_trunks gMath = rs) :=
  c9_results_are_record_sequences gMath "Trunk" "Trunk" "Algebra" "Math" ""
    (Or.inl rfl) (Or.inl rfl) (by decide)

end TopicGraph

namespace TopicGraph

/-! ### C1 -/

/-- With a unique matched parent and no branch of the name anywhere, the
`_create_branch` body creates exactly one fresh branch node and one
`BELONGS_TO` edge to the parent. -/
lemma createBranchOn_fresh (g : Graph) (L bname pname note : String) (p : Node)
    (hmatch : g.matching L [("name", pname)] = [p])
    (hfresh : branchesNamed g bname = []) :
    createBranchOn g L bname pname note =
      (addEdge (addNode g "Branch" [("name", bname), ("note", note)]).1
        (addNode g "Branch" [("name", bname), ("note", note)]).2.nid "BELONGS_TO" p.nid,
       [[("branch", getProp (addNode g "Branch" [("name", bname), ("note", note)]).2 "name"),
         ("parent", getProp p "name")]]) := by
  have hnone : ∀ n ∈ g.nodes, nodeMatches n "Branch" [("name", bname)] = false := by
    intro n hn
    have hnt := List.filter_eq_nil_iff.mp hfresh n hn
    exact Bool.eq_false_iff.mpr hnt
  have hany : (g.nodes.any (fun b =>
      nodeMatches b "Branch" [("name", bname)] && hasEdge g b.nid "BELONGS_TO" p.nid)) = false := by
    rw [Bool.eq_false_iff]
    intro hc
    obtain ⟨n, hn, hnc⟩ := List.any_eq_true.mp hc
    obtain ⟨h1, -⟩ := Bool.and_eq_true_iff.mp hnc
    rw [hnone n hn] at h1
    exact Bool.false_ne_true h1
  have hparents : (g.matching L [("name", pname)]).filter
      (fun p => !(g.nodes.any (fun b =>
        nodeMatches b "Branch" [("name", bname)] && hasEdge g b.nid "BELONGS_TO" p.nid))) = [p] := by
    rw [hmatch]
    simp [List.filter, hany]
  have hms : g.nodes.filter (fun n => nodeMatches n "Branch" [("name", bname), ("note", note)] &&
      hasEdge g n.nid "BELONGS_TO" p.nid) = [] := by
    refine List.filter_eq_nil_iff.mpr ?_
    intro n hn hc
    obtain ⟨h1, -⟩ := Bool.and_eq_true_iff.mp hc
    have h2 := nodeMatches_head n "Branch" _ _ h1
    rw [hnone n hn] at h2
    exact Bool.false_ne_true h2
  simp only [createBranchOn, hparents, List.foldl_cons, List.foldl_nil, mergePatternTo, hms,
    List.isEmpty_nil, if_true, List.nil_append, List.map_cons, List.map_nil]

end TopicGraph

namespace TopicGraph

/-- After a fresh create, the parent still matches uniquely, ids stay
well-formed, and the requested edge has settled. -/
lemma ConnInv_after_fresh_create (g : Graph) (L bname pname note : String) (p : Node)
    (hval : L = "Trunk" ∨ (L = "Branch" ∧ pname ≠ bname))
    (hmatch : g.matching L [("name", pname)] = [p])
    (hids : IdsOk g)
    (hfresh : branchesNamed g bname = []) :
    ConnInv (addEdge (addNode g "Branch" [("name", bname), ("note", note)]).1
      (addNode g "Branch" [("name", bname), ("note", note)]).2.nid "BELONGS_TO" p.nid)
      L pname bname p := by
  have hpmem : p ∈ g.nodes := by
    have hp : p ∈ g.matching L [("name", pname)] := by
      rw [hmatch]; exact List.mem_singleton_self p
    simp only [Graph.matching] at hp
    exact (List.mem_filter.mp hp).1
  have hnomatch : nodeMatches ⟨g.nextId, "Branch", [("name", bname), ("note", note)]⟩ L
      [("name", pname)] = false := by
    rcases hval with rfl | ⟨rfl, hne⟩
    · simp [nodeMatches]
    · have hb : (bname == pname) = false := beq_eq_false_iff_ne.mpr (fun h => hne h.symm)
      simp [nodeMatches, List.lookup, hb]
  have hbmatch : nodeMatches ⟨g.nextId, "Branch", [("name", bname), ("note", note)]⟩ "Branch"
      [("name", bname)] = true := by
    simp [nodeMatches, List.lookup]
  refine ⟨?_, ?_, ?_⟩
  · show (g.nodes ++ [(⟨g.nextId, "Branch", [("name", bname), ("note", note)]⟩ : Node)]).filter
      (fun n => nodeMatches n L [("name", pname)]) = [p]
    rw [List.filter_append]
    have h1 : g.nodes.filter (fun n => nodeMatches n L [("name", pname)]) = [p] := hmatch
    rw [h1]
    simp [List.filter, hnomatch]
  · obtain ⟨hidn, hide⟩ := hids
    constructor
    · intro n hn
      rcases List.mem_append.mp hn with hn | hn
      · exact Nat.lt_succ_of_lt (hidn n hn)
      · rw [List.mem_singleton.mp hn]
        exact Nat.lt_succ_self _
    · intro e he
      rcases List.mem_append.mp he with he | he
      · obtain ⟨h1, h2⟩ := hide e he
        exact ⟨Nat.lt_succ_of_lt h1, Nat.lt_succ_of_lt h2⟩
      · rw [List.mem_singleton.mp he]
        exact ⟨Nat.lt_succ_self _, Nat.lt_succ_of_lt (hidn p hpmem)⟩
  · refine ⟨⟨g.nextId, "Branch", [("name", bname), ("note", note)]⟩, ?_, ?_⟩
    · show (g.nodes ++ [(⟨g.nextId, "Branch", [("name", bname), ("note", note)]⟩ : Node)]).filter
        (fun n => nodeMatches n "Branch" [("name", bname)]) = _
      rw [List.filter_append]
      have h0 : g.nodes.filter (fun n => nodeMatches n "Branch" [("name", bname)]) = [] := hfresh
      rw [h0]
      simp [List.filter, hbmatch]
    · show ((g.edges ++ [(⟨g.nextId, "BELONGS_TO", p.nid⟩ : Edge)]).filter (fun e =>
        e.src == g.nextId && e.rel == "BELONGS_TO" && e.dst == p.nid)).length = 1
      rw [List.filter_append]
      have hold : g.edges.filter (fun e =>
          e.src == g.nextId && e.rel == "BELONGS_TO" && e.dst == p.nid) = [] := by
        refine List.filter_eq_nil_iff.mpr ?_
        intro e he hc
        have h1 : (e.src == g.nextId) = true :=
          (Bool.and_eq_true_iff.mp (Bool.and_eq_true_iff.mp hc).1).1
        exact absurd (eq_of_beq h1) (Nat.ne_of_lt (hids.2 e he).1)
      rw [hold]
      simp [List.filter]

end TopicGraph

namespace TopicGraph

/-- With the edge settled, the `_connect_branch` body leaves the store unchanged. -/
lemma connectBranchOn_state_settled (g : Graph) (L bname pname : String) (p b : Node)
    (hmatch : g.matching L [("name", pname)] = [p])
    (hbs : branchesNamed g bname = [b])
    (hcnt : (g.edges.filter (fun e =>
      e.src == b.nid && e.rel == "BELONGS_TO" && e.dst == p.nid)).length = 1) :
    (connectBranchOn g L bname pname).1 = g := by
  have hbs' : g.matching "Branch" [("name", bname)] = [b] := hbs
  have hme : mergeEdgeRows g b.nid "BELONGS_TO" p.nid = (g, 1) := by
    simp [mergeEdgeRows, hcnt]
  simp [connectBranchOn, hbs', hmatch, hme]

/-- With the edge settled, the `_create_branch` body is a no-op. -/
lemma createBranchOn_settled (g : Graph) (L bname pname note : String) (p b : Node)
    (hmatch : g.matching L [("name", pname)] = [p])
    (hbs : branchesNamed g bname = [b])
    (hcnt : (g.edges.filter (fun e =>
      e.src == b.nid && e.rel == "BELONGS_TO" && e.dst == p.nid)).length = 1) :
    createBranchOn g L bname pname note = (g, []) := by
  apply createBranchOn_alreadyExists
  intro q hq
  rw [hmatch, List.mem_singleton] at hq
  subst hq
  have hbmem : b ∈ g.nodes ∧ nodeMatches b "Branch" [("name", bname)] = true := by
    have hb : b ∈ branchesNamed g bname := by
      rw [hbs]; exact List.mem_singleton_self b
    simp only [branchesNamed, Graph.matching, List.mem_filter] at hb
    exact hb
  have hne : g.edges.filter (fun e =>
      e.src == b.nid && e.rel == "BELONGS_TO" && e.dst == q.nid) ≠ [] := by
    intro h0
    rw [h0] at hcnt
    simp at hcnt
  obtain ⟨e, hef⟩ := List.exists_mem_of_ne_nil _ hne
  have he := (List.mem_filter.mp hef).1
  have hc := (List.mem_filter.mp hef).2
  obtain ⟨h12, h3⟩ := Bool.and_eq_true_iff.mp hc
  obtain ⟨h1, h2⟩ := Bool.and_eq_true_iff.mp h12
  refine ⟨b, hbmem.1, hbmem.2, ?_⟩
  exact List.any_eq_true.mpr ⟨e, he, by simp [h1, h2, h3]⟩

/-- Any single attempt from a settled state leaves the store unchanged. -/
lemma runAttempt_settled (g : Graph) (bname plabel pname : String) (p : Node) (a : Attempt)
    (hval : plabel = "Trunk" ∨ (plabel = "Branch" ∧ pname ≠ bname))
    (hInv : ConnInv g plabel pname bname p) :
    runAttempt bname plabel pname g a = g := by
  unfold ConnInv EdgeSettled at hInv
  obtain ⟨hmatch, -, b, hbs, hcnt⟩ := hInv
  have hvl : plabel = "Trunk" ∨ plabel = "Branch" := hval.imp id And.left
  cases a with
  | create note =>
      rcases hvl with rfl | rfl <;>
        simp [runAttempt, _create_branch,
          createBranchOn_settled g _ bname pname note p b hmatch hbs hcnt]
  | connect =>
      rcases hvl with rfl | rfl <;>
        simp [runAttempt, _connect_branch,
          connectBranchOn_state_settled g _ bname pname p b hmatch hbs hcnt]

/-- A settled store is a fixed point of any serialisation of attempts. -/
lemma runAttempts_settled (g : Graph) (bname plabel pname : String) (p : Node)
    (ops : List Attempt)
    (hval : plabel = "Trunk" ∨ (plabel = "Branch" ∧ pname ≠ bname))
    (hInv : ConnInv g plabel pname bname p) :
    runAttempts bname plabel pname g ops = g := by
  induction ops with
  | nil => rfl
  | cons a t ih =>
      show runAttempts bname plabel pname (runAttempt bname plabel pname g a) t = g
      rw [runAttempt_settled g bname plabel pname p a hval hInv]
      exact ih

/-- Connecting before any branch of the name exists matches nothing. -/
lemma runAttempt_start_connect (g : Graph) (bname plabel pname : String)
    (hfresh : branchesNamed g bname = []) :
    runAttempt bname plabel pname g .connect = g := by
  have hf : g.matching "Branch" [("name", bname)] = [] := hfresh
  by_cases h1 : plabel = "Trunk"
  · subst h1
    simp [runAttempt, _connect_branch, connectBranchOn_no_match g _ bname pname (Or.inl hf)]
  by_cases h2 : plabel = "Branch"
  · subst h2
    simp [runAttempt, _connect_branch, connectBranchOn_no_match g _ bname pname (Or.inl hf)]
  · have hb1 : (plabel == "Trunk") = false := beq_eq_false_iff_ne.mpr h1
    have hb2 : (plabel == "Branch") = false := beq_eq_false_iff_ne.mpr h2
    simp [runAttempt, _connect_branch, hb1, hb2]

/-- The first create from a fresh state settles the edge. -/
lemma runAttempt_start_create (g : Graph) (bname plabel pname note : String) (p : Node)
    (hval : plabel = "Trunk" ∨ (plabel = "Branch" ∧ pname ≠ bname))
    (hmatch : g.matching plabel [("name", pname)] = [p])
    (hids : IdsOk g)
    (hfresh : branchesNamed g bname = []) :
    ConnInv (runAttempt bname plabel pname g (.create note)) plabel pname bname p := by
  have hvl : plabel = "Trunk" ∨ plabel = "Branch" := hval.imp id And.left
  rcases hvl with h | h
  · have hrun : runAttempt bname plabel pname g (.create note) =
        addEdge (addNode g "Branch" [("name", bname), ("note", note)]).1
          (addNode g "Branch" [("name", bname), ("note", note)]).2.nid "BELONGS_TO" p.nid := by
      subst h
      simp [runAttempt, _create_branch, createBranchOn_fresh g "Trunk" bname pname note p hmatch hfresh]
    rw [hrun]
    exact ConnInv_after_fresh_create g plabel bname pname note p hval hmatch hids hfresh
  · have hrun : runAttempt bname plabel pname g (.create note) =
        addEdge (addNode g "Branch" [("name", bname), ("note", note)]).1
          (addNode g "Branch" [("name", bname), ("note", note)]).2.nid "BELONGS_TO" p.nid := by
      subst h
      simp [runAttempt, _create_branch, createBranchOn_fresh g "Branch" bname pname note p hmatch hfresh]
    rw [hrun]
    exact ConnInv_after_fresh_create g plabel bname pname note p hval hmatch hids hfresh

end TopicGraph

namespace TopicGraph

/-- Any serialisation containing at least one create settles the edge. -/
lemma ConnInv_runAttempts (bname plabel pname : String) (p : Node)
    (hval : plabel = "Trunk" ∨ (plabel = "Branch" ∧ pname ≠ bname)) :
    ∀ (ops : List Attempt) (g : Graph),
      g.matching plabel [("name", pname)] = [p] → IdsOk g → branchesNamed g bname = [] →
      (∃ a ∈ ops, a.isCreate = true) →
      ConnInv (runAttempts bname plabel pname g ops) plabel pname bname p := by
  intro ops
  induction ops with
  | nil =>
      intro g _ _ _ hcreate
      obtain ⟨a, ha, -⟩ := hcreate
      exact absurd ha (List.not_mem_nil a)
  | cons a t ih =>
      intro g hmatch hids hfresh hcreate
      show ConnInv (runAttempts bname plabel pname (runAttempt bname plabel pname g a) t)
        plabel pname bname p
      cases a with
      | create note =>
          have hInv1 := runAttempt_start_create g bname plabel pname note p hval hmatch hids hfresh
          rw [runAttempts_settled _ bname plabel pname p t hval hInv1]
          exact hInv1
      | connect =>
          rw [runAttempt_start_connect g bname plabel pname hfresh]
          refine ih g hmatch hids hfresh ?_
          obtain ⟨a', ha', hc'⟩ := hcreate
          rcases List.mem_cons.mp ha' with rfl | h
          · exact absurd hc' (by simp [Attempt.isCreate])
          · exact ⟨a', h, hc'⟩

/-- When exactly one branch of the name exists, the name-scoped edge count
coincides with the node-scoped one. -/
lemma belongsCount_eq_one (g : Graph) (bname : String) (pid : Nat) (b : Node)
    (hbs : branchesNamed g bname = [b])
    (hcnt : (g.edges.filter (fun e =>
      e.src == b.nid && e.rel == "BELONGS_TO" && e.dst == pid)).length = 1) :
    belongsCount g bname pid = 1 := by
  have hbmem : b ∈ g.nodes ∧ nodeMatches b "Branch" [("name", bname)] = true := by
    have hb : b ∈ branchesNamed g bname := by
      rw [hbs]; exact List.mem_singleton_self b
    simp only [branchesNamed, Graph.matching, List.mem_filter] at hb
    exact hb
  have huniq : ∀ n ∈ g.nodes, nodeMatches n "Branch" [("name", bname)] = true → n = b := by
    intro n hn hm
    have hmem : n ∈ branchesNamed g bname := by
      simp only [branchesNamed, Graph.matching, List.mem_filter]
      exact ⟨hn, hm⟩
    rw [hbs] at hmem
    exact List.mem_singleton.mp hmem
  have hpt : ∀ e ∈ g.edges,
      (e.rel == "BELONGS_TO" && e.dst == pid &&
        g.nodes.any (fun n => n.nid == e.src && nodeMatches n "Branch" [("name", bname)]))
      = (e.src == b.nid && e.rel == "BELONGS_TO" && e.dst == pid) := by
    intro e he
    have hany : (g.nodes.any (fun n => n.nid == e.src && nodeMatches n "Branch" [("name", bname)]))
        = (e.src == b.nid) := by
      by_cases h : e.src = b.nid
      · have h1 : (g.nodes.any (fun n => n.nid == e.src &&
            nodeMatches n "Branch" [("name", bname)])) = true :=
          List.any_eq_true.mpr ⟨b, hbmem.1, by simp [h, hbmem.2]⟩
        rw [h1, h]
        simp
      · have h1 : (g.nodes.any (fun n => n.nid == e.src &&
            nodeMatches n "Branch" [("name", bname)])) = false := by
          rw [Bool.eq_false_iff]
          intro hc
          obtain ⟨n, hn, hnc⟩ := List.any_eq_true.mp hc
          obtain ⟨hn1, hn2⟩ := Bool.and_eq_true_iff.mp hnc
          have hsb : e.src = b.nid := by
            rw [← eq_of_beq hn1, huniq n hn hn2]
          exact h hsb
        have h2 : (e.src == b.nid) = false := beq_eq_false_iff_ne.mpr h
        rw [h1, h2]
    rw [hany]
    cases hx : (e.rel == "BELONGS_TO") <;> cases hy : (e.dst == pid) <;>
      cases hz : (e.src == b.nid) <;> rfl
  unfold belongsCount
  rw [List.filter_congr hpt]
  exact hcnt

/-- C1: the service's uniqueness-under-concurrency property, with the
store's transaction isolation modelled by serialising the N transactions
in an arbitrary order: starting from a store whose parent matches uniquely
and which holds no branch of the requested name, any sequence of attempts
to create the same branch-to-parent edge — each a single atomic
check-then-write `create_branch` or `connect_branch` transaction — in
which at least one attempt goes through `create_branch`, leaves exactly
one `BELONGS_TO` edge between a branch of that name and that parent. -/
theorem c1_concurrent_attempts_one_edge (g : Graph) (p : Node)
    (bname plabel pname : String) (ops : List Attempt)
    (hval : plabel = "Trunk" ∨ (plabel = "Branch" ∧ pname ≠ bname))
    (hmatch : g.matching plabel [("name", pname)] = [p])
    (hids : IdsOk g)
    (hfresh : branchesNamed g bname = [])
    (hcreate : ∃ a ∈ ops, a.isCreate = true) :
    belongsCount (runAttempts bname plabel pname g ops) bname p.nid = 1 := by
  have hInv := ConnInv_runAttempts bname plabel pname p hval ops g hmatch hids hfresh hcreate
  unfold ConnInv EdgeSettled at hInv
  obtain ⟨-, -, b, hbs, hcnt⟩ := hInv
  exact belongsCount_eq_one _ bname p.nid b hbs hcnt

/-- Witness for C1: four serialised attempts (connect, create, create,
connect) against Trunk `M` leave exactly one `BELONGS_TO` edge. -/
theorem c1_concurrent_attempts_one_edge_witness :
    belongsCount (runAttempts "A" "Trunk" "M"
      ⟨[⟨0, "Trunk", [("name", "M")]⟩], [], 1⟩
      [.connect, .create "", .create "x", .connect]) "A" 0 = 1 :=
  c1_concurrent_attempts_one_edge ⟨[⟨0, "Trunk", [("name", "M")]⟩], [], 1⟩
    ⟨0, "Trunk", [("name", "M")]⟩ "A" "Trunk" "M"
    [.connect, .create "", .create "x", .connect]
    (Or.inl rfl) (by decide) (by decide) (by decide)
    ⟨.create "", by decide, rfl⟩

end TopicGraph
